import Mathlib

/-!
Shallow embedding of src/src/tuntap.rs (TunTap virtual network interface
management).  OS interactions (open, socket, ioctl, read, write, close) are
modelled by explicit oracles describing the kernel's response, and every
operation additionally returns the list of OS events it performed, so that
claims about ordering and resource handling can be stated.  A Rust panic! is
modelled as the `Outcome.panic` constructor.
-/

namespace TunTapModel

/-- Modelled from the spec: the platform interface-name buffer capacity
IFNAMSIZ (16 bytes including the terminator).  The constant is imported by
tuntap.rs from the repository's c_interop module, which is not under src/. -/
def IFNAMSIZ : Nat := 16

/-- Modelled from the spec: the Linux ABI flag bit for an administratively up
interface (IFF_UP = 0x1), imported from the missing c_interop module; the spec
describes these as the platform's OS-ABI numeric constants. -/
def IFF_UP : Nat := 1

/-- Modelled from the spec: the Linux ABI flag bit for a running interface
(IFF_RUNNING = 0x40), imported from the missing c_interop module. -/
def IFF_RUNNING : Nat := 64

/-- Modelled from the spec: the Linux ABI attach flag selecting a TUN (raw IP)
device (IFF_TUN = 0x0001), imported from the missing c_interop module. -/
def IFF_TUN : Nat := 1

/-- Modelled from the spec: the Linux ABI attach flag selecting a TAP (raw
Ethernet) device (IFF_TAP = 0x0002), imported from the missing c_interop
module. -/
def IFF_TAP : Nat := 2

/-- The MTU constant from tuntap.rs: const MTU_SIZE: usize = 1500. -/
def MTU_SIZE : Nat := 1500

/-- The TunTapType enumeration from tuntap.rs. -/
inductive TunTapType where
  | tun
  | tap
  deriving DecidableEq, Repr

/-- Reasons for a Rust panic! in tuntap.rs, one constructor per panic site
family. -/
inductive PanicMsg where
  | nameTooLong
  | osError
  | ipv4NotImplemented
  | badIpLen (n : Nat)
  | notNullTerminated
  | assertBufferTooSmall
  deriving DecidableEq, Repr

/-- Result of a configuration operation: a normal return or a panic. -/
inductive Outcome (α : Type) where
  | ok (a : α)
  | panic (m : PanicMsg)
  deriving DecidableEq, Repr

/-- Recoverable runtime errors carried by io::Result values. -/
inductive IoErr where
  | writeZero
  | os (e : Nat)
  deriving DecidableEq, Repr

/-- Result of a packet I/O operation: a normal return, a recoverable io error
returned to the caller as a value, a panic, or (for the write loop) the state
of still running past the end of the modelled oracle. -/
inductive IoOutcome (α : Type) where
  | ok (a : α)
  | ioError (e : IoErr)
  | panic (m : PanicMsg)
  | blocked
  deriving DecidableEq, Repr

/-- Modelled from the spec: the name+flags ioctl request structure
(ioctl_flags_data) defined in the missing c_interop module; a fixed-capacity
name buffer plus a flags word. -/
structure ioctl_flags_data where
  ifr_name : List Nat
  ifr_flags : Nat
  deriving DecidableEq, Repr

/-- Modelled from the spec: the address+prefix+index ioctl request structure
(in6_ifreq) defined in the missing c_interop module; the address is the
kernel's native representation as 8 sixteen-bit words. -/
structure in6_ifreq where
  ifr6_addr : List Nat
  ifr6_prefixlen : Nat
  ifr6_ifindex : Int
  deriving DecidableEq, Repr

/-- Modelled from the spec: the name+index ioctl request structure
(ioctl_ifindex_data) defined in the missing c_interop module. -/
structure ioctl_ifindex_data where
  ifr_name : List Nat
  ifr_ifindex : Int
  deriving DecidableEq, Repr

/-- OS events performed by the embedded operations, in order. -/
inductive Ev where
  | openDevice
  | ioctlTunSetIff (req : ioctl_flags_data)
  | socketOpen
  | ioctlGetIndex (req : ioctl_ifindex_data)
  | closeSock (fd : Int)
  | ioctlGetFlags
  | ioctlSetFlags (flags : Nat)
  | ioctlSetAddr (req : in6_ifreq)
  | devRead
  deriving DecidableEq, Repr

/-- The fields of the TunTap struct relevant to the embedding (the File and
socket descriptors are kept by the oracles/events). -/
structure TunTapSt where
  if_name : List Nat
  if_index : Int
  deriving DecidableEq, Repr

/-- Kernel-side state and ioctl dispositions for the flag and address
operations: the interface's current flag word and whether each ioctl
succeeds. -/
structure Kern where
  flags : Nat
  getFlagsOk : Bool
  setFlagsOk : Bool
  setAddrOk : Bool
  deriving DecidableEq, Repr

/-- Embedding of TunTap::up (tuntap.rs lines 130-153).  Builds a name+flags
request with ifr_flags = 0, issues SIOCGIFFLAGS (the kernel writes the current
flags into the request), returns early when
req.ifr_flags & IFF_UP & IFF_RUNNING != 0, otherwise ors in IFF_UP | IFF_RUNNING
and issues SIOCSIFFLAGS.  Returns the outcome, the kernel state afterwards and
the event list. -/
def up (t : TunTapSt) (st : Kern) : Outcome Unit × Kern × List Ev :=
  let req : ioctl_flags_data := { ifr_name := t.if_name, ifr_flags := 0 }
  if st.getFlagsOk = false then
    (.panic .osError, st, [.ioctlGetFlags])
  else
    let req : ioctl_flags_data := { req with ifr_flags := st.flags }
    if req.ifr_flags &&& IFF_UP &&& IFF_RUNNING ≠ 0 then
      (.ok (), st, [.ioctlGetFlags])
    else
      let req : ioctl_flags_data :=
        { req with ifr_flags := req.ifr_flags ||| (IFF_UP ||| IFF_RUNNING) }
      if st.setFlagsOk = false then
        (.panic .osError, st, [.ioctlGetFlags, .ioctlSetFlags req.ifr_flags])
      else
        (.ok (), { st with flags := req.ifr_flags },
         [.ioctlGetFlags, .ioctlSetFlags req.ifr_flags])

/-- A sample stored interface-name buffer (the bytes of "tap0", null padded to
IFNAMSIZ). -/
def sampleIfName : List Nat := [116, 97, 112, 48] ++ List.replicate 12 0

/-- With the Linux ABI values the already-up test mask IFF_UP & IFF_RUNNING is
zero, so the test in up() can never fire. -/
theorem and_up_and_running (f : Nat) : f &&& IFF_UP &&& IFF_RUNNING = 0 := by
  have h : f &&& IFF_UP = f % 2 := Nat.and_one_is_mod f
  have h2 : f % 2 = 0 ∨ f % 2 = 1 := Nat.mod_two_eq_zero_or_one f
  unfold IFF_RUNNING
  rcases h2 with h2 | h2 <;> rw [h, h2] <;> decide

/-- The 8 sixteen-bit address words built by TunTap::add_address
(tuntap.rs lines 163-172): word i is (ip[2*i+1] as u16) << 8 | ip[2*i] as u16.
The input bytes are u8 values, so each word is below 2^16 with no overflow. -/
def codeWords (ip : List Nat) : List Nat :=
  [ (ip.getD 1 0) <<< 8 ||| ip.getD 0 0,
    (ip.getD 3 0) <<< 8 ||| ip.getD 2 0,
    (ip.getD 5 0) <<< 8 ||| ip.getD 4 0,
    (ip.getD 7 0) <<< 8 ||| ip.getD 6 0,
    (ip.getD 9 0) <<< 8 ||| ip.getD 8 0,
    (ip.getD 11 0) <<< 8 ||| ip.getD 10 0,
    (ip.getD 13 0) <<< 8 ||| ip.getD 12 0,
    (ip.getD 15 0) <<< 8 ||| ip.getD 14 0 ]

/-- The word layout the spec describes for the claim comparison: word i is
byte 2*i as the high octet and byte 2*i+1 as the low octet (big-endian byte
pairs).  This definition follows the spec's words, not the source, and exists
only to be compared with codeWords. -/
def specBigEndianWords (ip : List Nat) : List Nat :=
  [ (ip.getD 0 0) <<< 8 ||| ip.getD 1 0,
    (ip.getD 2 0) <<< 8 ||| ip.getD 3 0,
    (ip.getD 4 0) <<< 8 ||| ip.getD 5 0,
    (ip.getD 6 0) <<< 8 ||| ip.getD 7 0,
    (ip.getD 8 0) <<< 8 ||| ip.getD 9 0,
    (ip.getD 10 0) <<< 8 ||| ip.getD 11 0,
    (ip.getD 12 0) <<< 8 ||| ip.getD 13 0,
    (ip.getD 14 0) <<< 8 ||| ip.getD 15 0 ]

/-- Embedding of TunTap::add_address (tuntap.rs lines 155-185).  Calls up()
first; then: a 4-byte address panics with "IPv4 not implemented"; a 16-byte
address builds the in6_ifreq request (codeWords, prefix length 8, the cached
interface index) and issues SIOCSIFADDR; any other length panics reporting the
actual length. -/
def add_address (t : TunTapSt) (ip : List Nat) (st : Kern) :
    Outcome Unit × Kern × List Ev :=
  match up t st with
  | (.panic m, st1, tr) => (.panic m, st1, tr)
  | (.ok _, st1, tr) =>
    if ip.length = 4 then
      (.panic .ipv4NotImplemented, st1, tr)
    else if ip.length = 16 then
      let req : in6_ifreq :=
        { ifr6_addr := codeWords ip, ifr6_prefixlen := 8, ifr6_ifindex := t.if_index }
      if st1.setAddrOk = false then
        (.panic .osError, st1, tr ++ [.ioctlSetAddr req])
      else
        (.ok (), st1, tr ++ [.ioctlSetAddr req])
    else
      (.panic (.badIpLen ip.length), st1, tr)

/-- Oracle for create_if: whether the device path opens, whether the TUNSETIFF
ioctl succeeds, and the name the kernel writes back into the request (none
means the kernel leaves the caller's name buffer unchanged). -/
structure IfOracle where
  openOk : Bool
  attachOk : Bool
  kernelName : Option (List Nat)
  deriving DecidableEq, Repr

/-- The name buffer built in create_if: a zeroed IFNAMSIZ buffer whose head is
overwritten with the caller's name bytes including the terminator
(clone_from_slice of a slice no longer than the buffer). -/
def mkNameBuffer (nameWithNul : List Nat) : List Nat :=
  nameWithNul ++ List.replicate (IFNAMSIZ - nameWithNul.length) 0

/-- Embedding of TunTap::create_if (tuntap.rs lines 68-98).  The input name is
the CString's bytes without the terminator (a CString has no interior null
byte); as_bytes_with_nul appends the terminator.  Panics with the
name-too-long message before opening the device when the terminated name
exceeds IFNAMSIZ; then opens the device path, builds the name+flags request
with the attach flag for the type, issues TUNSETIFF and returns the
kernel-confirmed name from the request. -/
def create_if (typ : TunTapType) (name : List Nat) (fo : IfOracle) :
    Outcome (List Nat) × List Ev :=
  let name_slice := name ++ [0]
  if name_slice.length > IFNAMSIZ then
    (.panic .nameTooLong, [])
  else if fo.openOk = false then
    (.panic .osError, [.openDevice])
  else
    let req : ioctl_flags_data :=
      { ifr_name := mkNameBuffer name_slice,
        ifr_flags := match typ with | .tun => IFF_TUN | .tap => IFF_TAP }
    if fo.attachOk = false then
      (.panic .osError, [.openDevice, .ioctlTunSetIff req])
    else
      let confirmed := match fo.kernelName with
        | none => req.ifr_name
        | some k => k
      (.ok confirmed, [.openDevice, .ioctlTunSetIff req])

/-- Oracle for create_socket: whether socket() succeeds, the descriptor it
returns, and the interface index the SIOCGIFINDEX ioctl writes back (none
means the ioctl fails). -/
structure SockOracle where
  sockOk : Bool
  sockFd : Int
  idxResult : Option Int
  deriving DecidableEq, Repr

/-- Embedding of TunTap::create_socket (tuntap.rs lines 100-119).  Opens an
AF_INET6 datagram socket (panic on failure); issues SIOCGIFINDEX with a
name+index request; on ioctl failure closes the socket and then panics; on
success returns the open socket and the kernel-written index. -/
def create_socket (if_name : List Nat) (so : SockOracle) :
    Outcome (Int × Int) × List Ev :=
  if so.sockOk = false then
    (.panic .osError, [.socketOpen])
  else
    let req : ioctl_ifindex_data := { ifr_name := if_name, ifr_ifindex := -1 }
    match so.idxResult with
    | none =>
      (.panic .osError, [.socketOpen, .ioctlGetIndex req, .closeSock so.sockFd])
    | some idx =>
      (.ok (so.sockFd, idx), [.socketOpen, .ioctlGetIndex req])

/-- Embedding of TunTap::create_named (tuntap.rs lines 56-66): create_if then
create_socket, assembling the TunTap value. -/
def create_named (typ : TunTapType) (name : List Nat) (fo : IfOracle)
    (so : SockOracle) : Outcome TunTapSt × List Ev :=
  match create_if typ name fo with
  | (.panic m, tr) => (.panic m, tr)
  | (.ok if_name, tr) =>
    match create_socket if_name so with
    | (.panic m, tr2) => (.panic m, tr ++ tr2)
    | (.ok (_sock, idx), tr2) => (.ok { if_name := if_name, if_index := idx }, tr ++ tr2)

/-- Embedding of slice position_elem: index of the first element equal to the
given one. -/
def position_elem (x : Nat) : List Nat → Option Nat
  | [] => none
  | a :: l => if a = x then some 0 else (position_elem x l).map (· + 1)

/-- Embedding of TunTap::get_name (tuntap.rs lines 121-128): position of the
first null byte in the stored name buffer (panic when there is none), then the
bytes strictly before it. -/
def get_name (t : TunTapSt) : Outcome (List Nat) :=
  match position_elem 0 t.if_name with
  | none => .panic .notNullTerminated
  | some p => .ok (t.if_name.take p)

/-- Embedding of TunTap::read (tuntap.rs lines 187-192).  The buffer is a byte
list; the oracle gives the device read's result, a packet written into the
head of the buffer (the OS fills at most the buffer's capacity).  The
assertion buffer.len() >= MTU_SIZE panics before any read; an io error from
the read is returned by try! as a value; otherwise the slice of the filled
buffer of the length actually read is returned. -/
def read (buffer : List Nat) (osRead : Except IoErr (List Nat)) :
    IoOutcome (List Nat) × List Ev :=
  if buffer.length < MTU_SIZE then
    (.panic .assertBufferTooSmall, [])
  else
    match osRead with
    | .error e => (.ioError e, [.devRead])
    | .ok packet =>
      (.ok ((packet ++ buffer.drop packet.length).take packet.length), [.devRead])

/-- One step of the OS write call inside write_all: a successful write of n
bytes, an interrupted error (retried by write_all), or a fatal io error. -/
inductive WStep where
  | wrote (n : Nat)
  | interrupted
  | fatal (e : Nat)
  deriving DecidableEq, Repr

/-- Embedding of std write_all, called by TunTap::write (tuntap.rs lines
194-196): while bytes remain, call the OS write; a write of 0 bytes is the
WriteZero error; a partial write advances the buffer and retries; an
interrupted error is retried; any other error is returned to the caller.
When the finite oracle runs out while bytes remain, the loop is still
running (blocked). -/
def write_all : Nat → List WStep → IoOutcome Unit
  | 0, _ => .ok ()
  | _ + 1, [] => .blocked
  | n + 1, s :: rest =>
    match s with
    | .wrote 0 => .ioError .writeZero
    | .wrote (m + 1) => write_all (n + 1 - (m + 1)) rest
    | .interrupted => write_all (n + 1) rest
    | .fatal e => .ioError (.os e)

/-- Embedding of TunTap::write: write_all of the whole data buffer; its
io::Result is returned to the caller unchanged. -/
def write (data : List Nat) (steps : List WStep) : IoOutcome Unit :=
  write_all data.length steps

/-- Total bytes the OS accepted before write_all stopped, following the same
recursion as write_all. -/
def writtenBy : Nat → List WStep → Nat
  | 0, _ => 0
  | _ + 1, [] => 0
  | n + 1, s :: rest =>
    match s with
    | .wrote 0 => 0
    | .wrote (m + 1) => (m + 1) + writtenBy (n + 1 - (m + 1)) rest
    | .interrupted => writtenBy (n + 1) rest
    | .fatal _ => 0

/-- The OS never reports more bytes written than were asked for: validity of a
write oracle for a given initial remaining count. -/
def writeValid : Nat → List WStep → Bool
  | _, [] => true
  | r, s :: rest =>
    match s with
    | .wrote m => decide (m ≤ r) && writeValid (r - m) rest
    | .interrupted => writeValid r rest
    | .fatal _ => true

/-- C1: bring_up (up in the code) is claimed idempotent — after a first call
leaves the flags with the up and running bits set, a second call should return
after the get-flags ioctl without issuing a set-flags ioctl.  In the code the
already-up test is req.ifr_flags & IFF_UP & IFF_RUNNING != 0, whose mask
IFF_UP & IFF_RUNNING is 0 under the Linux ABI values, so the test never fires:
starting from flags 0, the first call succeeds and sets the flags to 0x41
(up|running); the second call reads flags 0x41 — which contain both bits — yet
still issues the set-flags ioctl (with the unchanged value 0x41), contradicting
the claim's "no flag-changing ioctl on the second call". -/
theorem up_second_call_still_issues_set_flags :
    up { if_name := sampleIfName, if_index := 1 }
        { flags := 0, getFlagsOk := true, setFlagsOk := true, setAddrOk := true }
      = (.ok (), { flags := 65, getFlagsOk := true, setFlagsOk := true, setAddrOk := true },
         [.ioctlGetFlags, .ioctlSetFlags 65])
    ∧ up { if_name := sampleIfName, if_index := 1 }
        { flags := 65, getFlagsOk := true, setFlagsOk := true, setAddrOk := true }
      = (.ok (), { flags := 65, getFlagsOk := true, setFlagsOk := true, setAddrOk := true },
         [.ioctlGetFlags, .ioctlSetFlags 65])
    ∧ 65 &&& IFF_UP ≠ 0 ∧ 65 &&& IFF_RUNNING ≠ 0 := by
  refine ⟨?_, ?_, ?_, ?_⟩ <;> decide

/-- When both flag ioctls succeed, up() reads the flags, never takes the dead
already-up branch, and writes back flags | IFF_UP | IFF_RUNNING. -/
theorem up_ok (t : TunTapSt) (st : Kern) (hg : st.getFlagsOk = true)
    (hs : st.setFlagsOk = true) :
    up t st = (.ok (), { st with flags := st.flags ||| (IFF_UP ||| IFF_RUNNING) },
               [.ioctlGetFlags,
                .ioctlSetFlags (st.flags ||| (IFF_UP ||| IFF_RUNNING))]) := by
  simp [up, hg, hs, and_up_and_running]

/-- A sample 16-byte address, the bytes 0..15 in order. -/
def sampleIp : List Nat := [0, 1, 2, 3, 4, 5, 6, 7, 8, 9, 10, 11, 12, 13, 14, 15]

/-- C2 counterexample: with the input bytes 0..15 and a successful oracle,
add_address issues its request with the words built by the code, and those
words are not the big-endian words the claim describes: the code's word 0 is
0x0100 (byte 1 as the high octet), the claim's word 0 would be 0x0001. -/
theorem add_address_words_differ_from_claim :
    (add_address { if_name := sampleIfName, if_index := 3 } sampleIp
        { flags := 0, getFlagsOk := true, setFlagsOk := true, setAddrOk := true }).2.2
      = [.ioctlGetFlags, .ioctlSetFlags 65,
         .ioctlSetAddr { ifr6_addr := codeWords sampleIp, ifr6_prefixlen := 8,
                         ifr6_ifindex := 3 }]
    ∧ codeWords sampleIp ≠ specBigEndianWords sampleIp
    ∧ codeWords sampleIp = [256, 770, 1284, 1798, 2312, 2826, 3340, 3854]
    ∧ specBigEndianWords sampleIp = [1, 515, 1029, 1543, 2057, 2571, 3085, 3599] := by
  refine ⟨?_, ?_, ?_, ?_⟩ <;> decide

/-- C2 amended: for every 16-byte input, add_address (after the implicit
bring-up) issues the address-assignment ioctl with a request whose word i has
byte 2i+1 as the high octet and byte 2i as the low octet (the reverse pairing
of the claim), prefix length fixed at 8 and the cached interface index; when
that ioctl succeeds the call returns normally. -/
theorem add_address_issues_swapped_words (t : TunTapSt) (ip : List Nat)
    (st : Kern) (h16 : ip.length = 16) (hg : st.getFlagsOk = true)
    (hs : st.setFlagsOk = true) :
    (add_address t ip st).2.2 =
      [.ioctlGetFlags, .ioctlSetFlags (st.flags ||| (IFF_UP ||| IFF_RUNNING)),
       .ioctlSetAddr
         { ifr6_addr :=
             [ (ip.getD 1 0) <<< 8 ||| ip.getD 0 0,
               (ip.getD 3 0) <<< 8 ||| ip.getD 2 0,
               (ip.getD 5 0) <<< 8 ||| ip.getD 4 0,
               (ip.getD 7 0) <<< 8 ||| ip.getD 6 0,
               (ip.getD 9 0) <<< 8 ||| ip.getD 8 0,
               (ip.getD 11 0) <<< 8 ||| ip.getD 10 0,
               (ip.getD 13 0) <<< 8 ||| ip.getD 12 0,
               (ip.getD 15 0) <<< 8 ||| ip.getD 14 0 ],
           ifr6_prefixlen := 8, ifr6_ifindex := t.if_index }]
    ∧ (st.setAddrOk = true → (add_address t ip st).1 = .ok ()) := by
  unfold add_address
  rw [up_ok t st hg hs]
  constructor
  · rcases Bool.eq_false_or_eq_true st.setAddrOk with hsa | hsa <;>
      simp [h16, codeWords, hsa]
  · intro hsa
    simp [h16, hsa]

/-- C2 witness: the amended theorem applied at the sample input, where each
hypothesis holds by evaluation. -/
theorem add_address_issues_swapped_words_witness :
    sampleIp.length = 16
    ∧ (add_address { if_name := sampleIfName, if_index := 3 } sampleIp
        { flags := 0, getFlagsOk := true, setFlagsOk := true, setAddrOk := true }).1
      = .ok () :=
  ⟨by decide,
   (add_address_issues_swapped_words { if_name := sampleIfName, if_index := 3 }
      sampleIp { flags := 0, getFlagsOk := true, setFlagsOk := true, setAddrOk := true }
      (by decide) rfl rfl).2 rfl⟩

/-- Full characterization of add_address under a successful flags oracle:
outcome by input length, kernel flags always updated by up(), and the event
list is up()'s two ioctls followed by the address ioctl exactly when the input
has length 16. -/
theorem add_address_shape (t : TunTapSt) (ip : List Nat) (st : Kern)
    (hg : st.getFlagsOk = true) (hs : st.setFlagsOk = true) :
    add_address t ip st =
      ((if ip.length = 4 then .panic .ipv4NotImplemented
        else if ip.length = 16 then
          (if st.setAddrOk = false then .panic .osError else .ok ())
        else .panic (.badIpLen ip.length)),
       { st with flags := st.flags ||| (IFF_UP ||| IFF_RUNNING) },
       [.ioctlGetFlags, .ioctlSetFlags (st.flags ||| (IFF_UP ||| IFF_RUNNING))]
         ++ (if ip.length = 16 then
              [.ioctlSetAddr { ifr6_addr := codeWords ip, ifr6_prefixlen := 8,
                               ifr6_ifindex := t.if_index }]
             else [])) := by
  unfold add_address
  rw [up_ok t st hg hs]
  by_cases h4 : ip.length = 4
  · simp [h4]
  · by_cases h16 : ip.length = 16
    · rcases Bool.eq_false_or_eq_true st.setAddrOk with hsa | hsa <;>
        simp [h4, h16, hsa]
    · simp [h4, h16]

/-- Adding the up and running bits changes a flag word that lacks one of
them. -/
theorem or_up_running_ne (f : Nat)
    (h : f &&& IFF_UP = 0 ∨ f &&& IFF_RUNNING = 0) :
    f ||| (IFF_UP ||| IFF_RUNNING) ≠ f := by
  intro he
  rcases h with h | h
  · have h1 := Nat.and_distrib_right f (IFF_UP ||| IFF_RUNNING) IFF_UP
    rw [he, h] at h1
    exact absurd h1 (by decide)
  · have h1 := Nat.and_distrib_right f (IFF_UP ||| IFF_RUNNING) IFF_RUNNING
    rw [he, h] at h1
    exact absurd h1 (by decide)

/-- C3: create_if rejects a terminated name longer than the IFNAMSIZ buffer
with the name-too-long panic before any OS event — in particular before the
device path is opened — and for a name of at most IFNAMSIZ - 1 bytes the
length check never produces that panic. -/
theorem create_if_name_length_check (typ : TunTapType) (name : List Nat)
    (fo : IfOracle) :
    (name.length > IFNAMSIZ - 1 →
       create_if typ name fo = (.panic .nameTooLong, []))
    ∧ (name.length ≤ IFNAMSIZ - 1 →
       (create_if typ name fo).1 ≠ Outcome.panic .nameTooLong) := by
  constructor
  · intro h
    have hl : (name ++ [0]).length > IFNAMSIZ := by
      simp [IFNAMSIZ] at h ⊢
      omega
    simp only [create_if]
    rw [if_pos hl]
  · intro h
    have hl : ¬(name ++ [0]).length > IFNAMSIZ := by
      simp [IFNAMSIZ] at h ⊢
      omega
    simp only [create_if]
    rw [if_neg hl]
    rcases Bool.eq_false_or_eq_true fo.openOk with ho | ho <;>
      rcases Bool.eq_false_or_eq_true fo.attachOk with ha | ha <;>
        simp [ho, ha]

/-- C3 witness: a 16-byte name is rejected with an empty event list; a 4-byte
name passes the length check. -/
theorem create_if_name_length_check_witness :
    (List.replicate 16 97).length > IFNAMSIZ - 1
    ∧ create_if .tap (List.replicate 16 97)
        { openOk := true, attachOk := true, kernelName := none }
      = (.panic .nameTooLong, [])
    ∧ (List.replicate 4 97).length ≤ IFNAMSIZ - 1
    ∧ (create_if .tap (List.replicate 4 97)
        { openOk := true, attachOk := true, kernelName := none }).1
      ≠ Outcome.panic .nameTooLong :=
  ⟨by decide,
   (create_if_name_length_check .tap (List.replicate 16 97)
      { openOk := true, attachOk := true, kernelName := none }).1 (by decide),
   by decide,
   (create_if_name_length_check .tap (List.replicate 4 97)
      { openOk := true, attachOk := true, kernelName := none }).2 (by decide)⟩

/-- C4: under a successful bring-up, add_address panics with the IPv4
not-implemented message on a 4-byte input and with the invalid-length message
reporting the actual length on any length that is neither 4 nor 16, in both
cases without issuing the address-assignment ioctl; and the address ioctl
appears in the event list only for a 16-byte input. -/
theorem add_address_length_validation (t : TunTapSt) (ip : List Nat)
    (st : Kern) (hg : st.getFlagsOk = true) (hs : st.setFlagsOk = true) :
    (ip.length = 4 →
       (add_address t ip st).1 = .panic .ipv4NotImplemented
       ∧ ∀ req : in6_ifreq, Ev.ioctlSetAddr req ∉ (add_address t ip st).2.2)
    ∧ (ip.length ≠ 4 → ip.length ≠ 16 →
       (add_address t ip st).1 = .panic (.badIpLen ip.length)
       ∧ ∀ req : in6_ifreq, Ev.ioctlSetAddr req ∉ (add_address t ip st).2.2)
    ∧ (∀ req : in6_ifreq,
       Ev.ioctlSetAddr req ∈ (add_address t ip st).2.2 → ip.length = 16) := by
  have hsh := add_address_shape t ip st hg hs
  refine ⟨?_, ?_, ?_⟩
  · intro h4
    rw [hsh]
    exact ⟨by simp [h4], by intro req; simp [h4]⟩
  · intro h4 h16
    rw [hsh]
    exact ⟨by simp [h4, h16], by intro req; simp [h4, h16]⟩
  · intro req hmem
    rw [hsh] at hmem
    by_cases h16 : ip.length = 16
    · exact h16
    · simp [h16] at hmem

/-- C4 witness: the theorem applied to a 4-byte input and to a 5-byte input
with a successful oracle. -/
theorem add_address_length_validation_witness :
    ([10, 11, 12, 13] : List Nat).length = 4
    ∧ (add_address { if_name := sampleIfName, if_index := 3 } [10, 11, 12, 13]
        { flags := 0, getFlagsOk := true, setFlagsOk := true, setAddrOk := true }).1
      = .panic .ipv4NotImplemented
    ∧ ([10, 11, 12, 13, 14] : List Nat).length ≠ 4
    ∧ ([10, 11, 12, 13, 14] : List Nat).length ≠ 16
    ∧ (add_address { if_name := sampleIfName, if_index := 3 } [10, 11, 12, 13, 14]
        { flags := 0, getFlagsOk := true, setFlagsOk := true, setAddrOk := true }).1
      = .panic (.badIpLen 5) :=
  ⟨by decide,
   ((add_address_length_validation { if_name := sampleIfName, if_index := 3 }
      [10, 11, 12, 13]
      { flags := 0, getFlagsOk := true, setFlagsOk := true, setAddrOk := true }
      rfl rfl).1 rfl).1,
   by decide, by decide,
   ((add_address_length_validation { if_name := sampleIfName, if_index := 3 }
      [10, 11, 12, 13, 14]
      { flags := 0, getFlagsOk := true, setFlagsOk := true, setAddrOk := true }
      rfl rfl).2.1 (by decide) (by decide)).1⟩

/-- C10 counterexample: a failed add_address can leave the interface's flag
state unchanged — with the flags already 0x41 (up|running) and a 5-byte input,
the call fails fatally with the invalid-length panic yet the flag word after
the implicit bring-up is still 0x41, refuting the claim's final clause that a
failed add_address never leaves the flag state unchanged. -/
theorem failed_add_address_can_keep_flags :
    (add_address { if_name := sampleIfName, if_index := 3 } [1, 2, 3, 4, 5]
        { flags := 65, getFlagsOk := true, setFlagsOk := true, setAddrOk := true }).1
      = .panic (.badIpLen 5)
    ∧ (add_address { if_name := sampleIfName, if_index := 3 } [1, 2, 3, 4, 5]
        { flags := 65, getFlagsOk := true, setFlagsOk := true, setAddrOk := true }).2.1.flags
      = 65 := by
  refine ⟨?_, ?_⟩ <;> decide

/-- C10 amended: for every input slice and every initial flag word (with the
flag ioctls succeeding), add_address performs up()'s get-flags and set-flags
ioctls before anything else — before the length validation — leaving the
kernel flags at flags | IFF_UP | IFF_RUNNING; when the initial flags lacked
one of the two bits this state differs from the initial one; and every input
whose length is not 16 still fails fatally after that side effect. -/
theorem add_address_up_side_effect_first (t : TunTapSt) (ip : List Nat)
    (st : Kern) (hg : st.getFlagsOk = true) (hs : st.setFlagsOk = true) :
    (∃ rest, (add_address t ip st).2.2 =
        .ioctlGetFlags :: .ioctlSetFlags (st.flags ||| (IFF_UP ||| IFF_RUNNING)) :: rest)
    ∧ (add_address t ip st).2.1.flags = st.flags ||| (IFF_UP ||| IFF_RUNNING)
    ∧ ((st.flags &&& IFF_UP = 0 ∨ st.flags &&& IFF_RUNNING = 0) →
        (add_address t ip st).2.1.flags ≠ st.flags)
    ∧ (ip.length ≠ 16 → ∃ m, (add_address t ip st).1 = .panic m) := by
  have hsh := add_address_shape t ip st hg hs
  refine ⟨?_, by rw [hsh], ?_, ?_⟩
  · exact ⟨(if ip.length = 16 then
              [.ioctlSetAddr { ifr6_addr := codeWords ip, ifr6_prefixlen := 8,
                               ifr6_ifindex := t.if_index }]
            else []), by simp [hsh]⟩
  · intro h
    rw [hsh]
    exact or_up_running_ne st.flags h
  · intro h16
    rw [hsh]
    by_cases h4 : ip.length = 4
    · exact ⟨.ipv4NotImplemented, by simp [h4]⟩
    · exact ⟨.badIpLen ip.length, by simp [h4, h16]⟩

/-- C10 witness: the theorem applied to a 4-byte input starting from flag word
0; the failed call still leaves the flags changed to 0x41. -/
theorem add_address_up_side_effect_first_witness :
    ((0 : Nat) &&& IFF_UP = 0 ∨ (0 : Nat) &&& IFF_RUNNING = 0)
    ∧ (add_address { if_name := sampleIfName, if_index := 3 } [10, 11, 12, 13]
        { flags := 0, getFlagsOk := true, setFlagsOk := true, setAddrOk := true }).2.1.flags
      ≠ (0 : Nat) :=
  ⟨Or.inl (by decide),
   (add_address_up_side_effect_first { if_name := sampleIfName, if_index := 3 }
      [10, 11, 12, 13]
      { flags := 0, getFlagsOk := true, setFlagsOk := true, setAddrOk := true }
      rfl rfl).2.2.1 (Or.inl (by decide))⟩

/-- C5: read panics on the assertion, before touching the device, for every
buffer smaller than MTU_SIZE; with a buffer of capacity at least MTU_SIZE it
performs exactly one device read and returns Ok with exactly the prefix of the
filled buffer of the length actually read, a short read included; an io error
from the read is returned as a value. -/
theorem read_contract (buffer packet : List Nat) (e : IoErr) :
    (buffer.length < MTU_SIZE →
       ∀ r : Except IoErr (List Nat),
         read buffer r = (.panic .assertBufferTooSmall, []))
    ∧ (MTU_SIZE ≤ buffer.length → packet.length ≤ buffer.length →
       read buffer (.ok packet) = (.ok packet, [.devRead]))
    ∧ (MTU_SIZE ≤ buffer.length →
       read buffer (.error e) = (.ioError e, [.devRead])) := by
  refine ⟨?_, ?_, ?_⟩
  · intro h r
    simp [read, h]
  · intro h _hp
    have hn : ¬buffer.length < MTU_SIZE := Nat.not_lt.mpr h
    simp [read, hn, List.take_left' rfl]
  · intro h
    have hn : ¬buffer.length < MTU_SIZE := Nat.not_lt.mpr h
    simp [read, hn]

/-- C5 witness: a 3-byte buffer is rejected by the assertion; a 1500-byte
buffer accepts a short 3-byte packet. -/
theorem read_contract_witness :
    (List.replicate 3 0).length < MTU_SIZE
    ∧ read (List.replicate 3 0) (.ok [7]) = (.panic .assertBufferTooSmall, [])
    ∧ MTU_SIZE ≤ (List.replicate 1500 0).length
    ∧ ([7, 8, 9] : List Nat).length ≤ (List.replicate 1500 0).length
    ∧ read (List.replicate 1500 0) (.ok [7, 8, 9]) = (.ok [7, 8, 9], [.devRead]) :=
  ⟨by decide,
   (read_contract (List.replicate 3 0) [7] (.os 0)).1 (by decide) (.ok [7]),
   by rw [List.length_replicate]; decide,
   by rw [List.length_replicate]; decide,
   (read_contract (List.replicate 1500 0) [7, 8, 9] (.os 0)).2.1
     (by rw [List.length_replicate]; decide) (by rw [List.length_replicate]; decide)⟩

/-- A successful write_all run has consumed exactly the bytes it was asked to
write, provided the OS never reported more bytes than remained. -/
theorem write_all_ok_written (steps : List WStep) : ∀ r : Nat,
    writeValid r steps = true → write_all r steps = .ok () →
    writtenBy r steps = r := by
  induction steps with
  | nil =>
    intro r _ hok
    cases r with
    | zero => rfl
    | succ n => exact absurd hok (by simp [write_all])
  | cons s rest ih =>
    intro r hv hok
    cases r with
    | zero => rfl
    | succ n =>
      cases s with
      | wrote m =>
        cases m with
        | zero => exact absurd hok (by simp [write_all])
        | succ k =>
          simp only [writeValid, Bool.and_eq_true, decide_eq_true_eq] at hv
          simp only [write_all] at hok
          have h2 := ih (n + 1 - (k + 1)) hv.2 hok
          simp only [writtenBy]
          omega
      | interrupted =>
        simp only [writeValid] at hv
        simp only [write_all] at hok
        simp only [writtenBy]
        exact ih (n + 1) hv hok
      | fatal e => exact absurd hok (by simp [write_all])

/-- write_all never panics, whatever the OS does. -/
theorem write_all_ne_panic (steps : List WStep) : ∀ (r : Nat) (m : PanicMsg),
    write_all r steps ≠ .panic m := by
  induction steps with
  | nil =>
    intro r m
    cases r <;> simp [write_all]
  | cons s rest ih =>
    intro r m
    cases r with
    | zero => simp [write_all]
    | succ n =>
      cases s with
      | wrote k =>
        cases k with
        | zero => simp [write_all]
        | succ j =>
          simp only [write_all]
          exact ih (n + 1 - (j + 1)) m
      | interrupted =>
        simp only [write_all]
        exact ih (n + 1) m
      | fatal e => simp [write_all]

/-- C6: write has write-all semantics — a normal return means every byte of
the input was consumed by the OS; a partial write advances the remaining count
and retries; a fatal io error with bytes remaining is returned to the caller
as a result value; and no oracle behaviour makes the write path panic. -/
theorem write_write_all_semantics (data : List Nat) (steps : List WStep)
    (hv : writeValid data.length steps = true) :
    (write data steps = .ok () → writtenBy data.length steps = data.length)
    ∧ (∀ m : PanicMsg, write data steps ≠ .panic m)
    ∧ (∀ (r e : Nat) (rest : List WStep),
        write_all (r + 1) (.fatal e :: rest) = .ioError (.os e))
    ∧ (∀ (r m : Nat) (rest : List WStep),
        write_all (r + 1) (.wrote (m + 1) :: rest)
          = write_all (r + 1 - (m + 1)) rest) :=
  ⟨fun hok => write_all_ok_written steps data.length hv hok,
   fun m => write_all_ne_panic steps data.length m,
   fun _ _ _ => rfl,
   fun _ _ _ => rfl⟩

/-- C6 witness: writing 3 bytes through a partial write of 2, an interrupted
retry and a final write of 1 returns Ok with all 3 bytes consumed. -/
theorem write_write_all_semantics_witness :
    writeValid 3 [.wrote 2, .interrupted, .wrote 1] = true
    ∧ write [1, 2, 3] [.wrote 2, .interrupted, .wrote 1] = .ok ()
    ∧ writtenBy 3 [.wrote 2, .interrupted, .wrote 1] = 3 :=
  ⟨by decide, by decide,
   (write_write_all_semantics [1, 2, 3] [.wrote 2, .interrupted, .wrote 1]
      (by decide)).1 (by decide)⟩

/-- C7: when the index-lookup ioctl inside create_socket fails, the
just-opened socket is closed (the closeSock event precedes the panic
propagation at the end of the event list); on success the kernel-written index
is returned and the socket is never closed. -/
theorem create_socket_closes_on_failure (if_name : List Nat) (so : SockOracle)
    (hs : so.sockOk = true) :
    (so.idxResult = none →
       create_socket if_name so
         = (.panic .osError,
            [.socketOpen, .ioctlGetIndex { ifr_name := if_name, ifr_ifindex := -1 },
             .closeSock so.sockFd]))
    ∧ (∀ idx : Int, so.idxResult = some idx →
       create_socket if_name so
         = (.ok (so.sockFd, idx),
            [.socketOpen, .ioctlGetIndex { ifr_name := if_name, ifr_ifindex := -1 }])
       ∧ Ev.closeSock so.sockFd ∉ (create_socket if_name so).2) := by
  constructor
  · intro hn
    simp [create_socket, hs, hn]
  · intro idx hi
    constructor
    · simp [create_socket, hs, hi]
    · simp [create_socket, hs, hi]

/-- C7 witness: the theorem applied to a failing and to a succeeding
index-lookup oracle on socket descriptor 5. -/
theorem create_socket_closes_on_failure_witness :
    ({ sockOk := true, sockFd := 5, idxResult := none } : SockOracle).idxResult = none
    ∧ create_socket sampleIfName { sockOk := true, sockFd := 5, idxResult := none }
      = (.panic .osError,
         [.socketOpen, .ioctlGetIndex { ifr_name := sampleIfName, ifr_ifindex := -1 },
          .closeSock 5])
    ∧ create_socket sampleIfName { sockOk := true, sockFd := 5, idxResult := some 7 }
      = (.ok (5, 7),
         [.socketOpen, .ioctlGetIndex { ifr_name := sampleIfName, ifr_ifindex := -1 }]) :=
  ⟨rfl,
   (create_socket_closes_on_failure sampleIfName
      { sockOk := true, sockFd := 5, idxResult := none } rfl).1 rfl,
   ((create_socket_closes_on_failure sampleIfName
      { sockOk := true, sockFd := 5, idxResult := some 7 } rfl).2 7 rfl).1⟩

/-- position_elem misses exactly when the element is absent. -/
theorem position_elem_eq_none (x : Nat) (l : List Nat) :
    position_elem x l = none ↔ x ∉ l := by
  induction l with
  | nil => simp [position_elem]
  | cons a t ih =>
    by_cases ha : a = x
    · subst ha
      simp [position_elem]
    · simp [position_elem, ha, ih]
      intro h
      exact fun he => ha he.symm

/-- The elements strictly before the first occurrence do not contain the
sought element. -/
theorem position_elem_take (x : Nat) (l : List Nat) : ∀ p : Nat,
    position_elem x l = some p → x ∉ l.take p := by
  induction l with
  | nil =>
    intro p h
    simp [position_elem] at h
  | cons a t ih =>
    intro p h
    by_cases ha : a = x
    · simp [position_elem, ha] at h
      subst h
      simp
    · simp only [position_elem, if_neg ha, Option.map_eq_some'] at h
      obtain ⟨q, hq, hp⟩ := h
      subst hp
      simp only [List.take_succ_cons, List.mem_cons, not_or]
      exact ⟨fun he => ha he.symm, ih q hq⟩

/-- C8: get_name returns exactly the bytes of the stored name buffer strictly
before its first null byte (in particular none of them is null), and panics
when the buffer holds no null byte at all. -/
theorem get_name_spec (t : TunTapSt) :
    ((0 : Nat) ∉ t.if_name → get_name t = .panic .notNullTerminated)
    ∧ (∀ p, position_elem 0 t.if_name = some p →
        get_name t = .ok (t.if_name.take p) ∧ (0 : Nat) ∉ t.if_name.take p) := by
  constructor
  · intro h
    have hn : position_elem 0 t.if_name = none :=
      (position_elem_eq_none 0 t.if_name).mpr h
    simp [get_name, hn]
  · intro p hp
    exact ⟨by simp [get_name, hp], position_elem_take 0 t.if_name p hp⟩

/-- C8 witness: a buffer with no null byte panics; the sample buffer with its
first null at index 4 yields its first four bytes. -/
theorem get_name_spec_witness :
    (0 : Nat) ∉ ([1, 2, 3] : List Nat)
    ∧ get_name { if_name := [1, 2, 3], if_index := 0 } = .panic .notNullTerminated
    ∧ position_elem 0 sampleIfName = some 4
    ∧ get_name { if_name := sampleIfName, if_index := 0 } = .ok (sampleIfName.take 4)
    ∧ sampleIfName.take 4 = [116, 97, 112, 48] :=
  ⟨by decide,
   (get_name_spec { if_name := [1, 2, 3], if_index := 0 }).1 (by decide),
   by decide,
   ((get_name_spec { if_name := sampleIfName, if_index := 0 }).2 4 (by decide)).1,
   by decide⟩

/-- The first null of a null-free name followed by a null and anything else is
precisely at the name's length. -/
theorem position_elem_append_zero (name rest : List Nat) (hz : (0 : Nat) ∉ name) :
    position_elem 0 (name ++ 0 :: rest) = some name.length := by
  induction name with
  | nil => simp [position_elem]
  | cons a t ih =>
    have ha : ¬a = 0 := fun h => hz (by simp [h])
    have ht : (0 : Nat) ∉ t := fun hm => hz (List.mem_cons_of_mem a hm)
    simp [position_elem, ha, ih ht]

/-- C9: for every null-free name of at most IFNAMSIZ - 1 bytes, when the
device opens, the attach ioctl succeeds without the kernel rewriting the name,
and the control socket resolves the index, create_named succeeds with the
stored buffer equal to the name, its terminator and null padding; get_name then
returns exactly the supplied name, whose terminator sits inside the
IFNAMSIZ-byte buffer. -/
theorem create_named_get_name_round_trip (typ : TunTapType) (name : List Nat)
    (fo : IfOracle) (so : SockOracle) (idx : Int)
    (hlen : name.length ≤ IFNAMSIZ - 1) (hz : (0 : Nat) ∉ name)
    (ho : fo.openOk = true) (ha : fo.attachOk = true) (hk : fo.kernelName = none)
    (hs : so.sockOk = true) (hi : so.idxResult = some idx) :
    ∃ tr, create_named typ name fo so
        = (.ok { if_name := mkNameBuffer (name ++ [0]), if_index := idx }, tr)
      ∧ get_name { if_name := mkNameBuffer (name ++ [0]), if_index := idx }
          = .ok name
      ∧ (mkNameBuffer (name ++ [0])).length = IFNAMSIZ
      ∧ position_elem 0 (mkNameBuffer (name ++ [0])) = some name.length := by
  have hl : ¬(name ++ [0]).length > IFNAMSIZ := by
    simp [IFNAMSIZ] at hlen ⊢
    omega
  have hbuf : mkNameBuffer (name ++ [0])
      = name ++ 0 :: List.replicate (IFNAMSIZ - (name.length + 1)) 0 := by
    simp [mkNameBuffer, List.append_assoc]
  have hpos : position_elem 0 (mkNameBuffer (name ++ [0])) = some name.length := by
    rw [hbuf]
    exact position_elem_append_zero name _ hz
  refine ⟨[.openDevice,
           .ioctlTunSetIff
             { ifr_name := mkNameBuffer (name ++ [0]),
               ifr_flags := match typ with | .tun => IFF_TUN | .tap => IFF_TAP },
           .socketOpen,
           .ioctlGetIndex { ifr_name := mkNameBuffer (name ++ [0]), ifr_ifindex := -1 }],
         ?_, ?_, ?_, hpos⟩
  · simp only [create_named, create_if]
    rw [if_neg hl]
    simp only [ho, ha, hk]
    simp [create_socket, hs, hi]
  · simp only [get_name, hpos]
    rw [hbuf, List.take_left' rfl]
  · rw [hbuf]
    simp [IFNAMSIZ] at hlen ⊢
    omega

/-- C9 witness: the round trip for the 4-byte name "tap0". -/
theorem create_named_get_name_round_trip_witness :
    ([116, 97, 112, 48] : List Nat).length ≤ IFNAMSIZ - 1
    ∧ (0 : Nat) ∉ ([116, 97, 112, 48] : List Nat)
    ∧ ∃ tr, create_named .tap [116, 97, 112, 48]
          { openOk := true, attachOk := true, kernelName := none }
          { sockOk := true, sockFd := 5, idxResult := some 7 }
        = (.ok { if_name := mkNameBuffer ([116, 97, 112, 48] ++ [0]), if_index := 7 }, tr)
      ∧ get_name { if_name := mkNameBuffer ([116, 97, 112, 48] ++ [0]), if_index := 7 }
          = .ok [116, 97, 112, 48]
      ∧ (mkNameBuffer ([116, 97, 112, 48] ++ [0])).length = IFNAMSIZ
      ∧ position_elem 0 (mkNameBuffer ([116, 97, 112, 48] ++ [0])) = some 4 :=
  ⟨by decide, by decide,
   create_named_get_name_round_trip .tap [116, 97, 112, 48]
     { openOk := true, attachOk := true, kernelName := none }
     { sockOk := true, sockFd := 5, idxResult := some 7 } 7
     (by decide) (by decide) rfl rfl rfl rfl rfl⟩

end TunTapModel
